import Mathlib

/-!
Shallow embedding of the frame orchestrator in `src/renderer/mod.rs` of
nivalis-rs, together with proofs about its per-frame protocol, resize
handling, text layout and resource-pool registry.

Modelling conventions:
* `f32` quantities (scale factors, logical widths, layout offsets) are
  modelled as `ℚ`, treating the arithmetic as exact; the claims under
  consideration are about which formula is applied, not about rounding.
* GPU/windowing side effects are modelled as an explicit event trace
  (`Event`); commands recorded into a `wgpu::CommandEncoder` are the
  `encoder` field of `FrameContext`.
* A Rust panic is modelled as `none` / a dedicated `panic` outcome.
* `std::collections::HashMap` is modelled as an association list in
  insertion order, plus an explicit iteration-order parameter wherever the
  code iterates over the map: the iteration order of `HashMap` is
  unspecified (and randomized), so it is an input of the semantics,
  constrained only to be a permutation of the entries.
* Text shaping (glyphon/cosmic-text) is external to the repository; it is
  modelled by an oracle `ShapeFn` giving the number of layout runs a
  buffer has after `shape_until_scroll`.
-/

namespace Nivalis

/-- Model of `wgpu::SurfaceError` as matched by `Renderer::begin_frame`. -/
inductive SurfaceError where
  | timeout
  | outdated
  | lost
  | outOfMemory
  | other
  deriving DecidableEq

/-- The mutable part of `wgpu::SurfaceConfiguration` that
`Renderer::handle_resize` touches (`width` and `height`); the format and
present mode are fixed at construction and never mutated afterwards. -/
structure SurfaceConfig where
  width : Nat
  height : Nat
  deriving DecidableEq

/-- Model of `PipelineType` from `src/renderer/pipeline.rs`. -/
inductive PipelineType where
  | basic2D
  | basic3D
  deriving DecidableEq

/-- Which render pass a recorded pass is (identified by its label /
call site in `src/renderer/mod.rs`). -/
inductive PassKind where
  | image
  | text
  | ui
  deriving DecidableEq

/-- Model of the color-attachment load operation of a render pass. -/
inductive LoadOp where
  | clear
  | load
  deriving DecidableEq

/-- One render pass as recorded into the frame command encoder. -/
structure RecordedPass where
  kind : PassKind
  load : LoadOp
  deriving DecidableEq

/-- Observable side effects of the renderer outside the command encoder:
surface reconfiguration, redraw requests, encoder creation, error logs,
queue submission, presentation and atlas trimming. -/
inductive Event where
  | configureSurface (cfg : SurfaceConfig)
  | requestRedraw
  | createEncoder
  | logError (msg : String)
  | submit (passes : List RecordedPass)
  | present
  | atlasTrim
  deriving DecidableEq

/-- Model of an in-flight `FrameContext`: the acquired target and view are
opaque, the command encoder is the list of passes recorded so far. -/
structure FrameContext where
  encoder : List RecordedPass
  deriving DecidableEq

/-- Model of a shaped `glyphon::Buffer` owned by the text renderer:
its metrics (`Metrics::relative(font_size, line_height)` stores the
line-height as a multiple of the font size), its text, the wrap-width
constraint last given to `set_size`, the wrap width the current shaping
corresponds to, and the number of layout runs of the current shaping. -/
structure GBuffer where
  fontSize : ℚ
  lineHeightScale : ℚ
  text : String
  wrapWidth : Option ℚ
  shapedWidth : Option ℚ
  lineCount : Nat
  deriving DecidableEq

/-- `Metrics::relative` makes the absolute line height
`font_size * line_height`. -/
def GBuffer.metricsLineHeight (b : GBuffer) : ℚ :=
  b.fontSize * b.lineHeightScale

/-- Shaping oracle: given text, font size, line-height scale and wrap
width, the number of layout runs produced by `shape_until_scroll`. -/
abbrev ShapeFn : Type :=
  String → ℚ → ℚ → Option ℚ → Nat

/-- `Buffer::set_size(font_system, Some w, None)`: records the wrap-width
constraint. -/
def GBuffer.set_size (b : GBuffer) (w : Option ℚ) : GBuffer :=
  { b with wrapWidth := w }

/-- `Buffer::shape_until_scroll`: re-shapes the buffer at its current
wrap width, updating the layout-run count. -/
def GBuffer.shape_until_scroll (shape : ShapeFn) (b : GBuffer) : GBuffer :=
  { b with
    shapedWidth := b.wrapWidth
    lineCount := shape b.text b.fontSize b.lineHeightScale b.wrapWidth }

/-- Model of `TextRenderer` from `src/renderer/text.rs`: physical size,
scale factor, viewport resolution, and the buffer map (kept in insertion
order; `HashMap` iteration order is a separate parameter). -/
structure TextRenderer where
  physical_size : Nat × Nat
  scale_factor : ℚ
  viewport : Nat × Nat
  buffers : List (String × GBuffer)
  deriving DecidableEq

/-- Model of an `NvTexture`: the GPU objects are opaque, only the source
name it was built from is kept. -/
structure NvTexture where
  name : String
  deriving DecidableEq

/-- Model of `NvTexturePool` from `src/assets/mod.rs`. -/
structure NvTexturePool where
  textures : List NvTexture
  deriving DecidableEq

/-- Modelled from the spec: `AssetPool` (imported by
`src/renderer/mod.rs` from `crate::assets::manager` but not present under
`src/`) is, per the spec, an ordered sequence of asset names used only as
input to resource-pool construction. -/
structure AssetPool where
  textures : List String
  deriving DecidableEq

/-- Model of the `Renderer` state from `src/renderer/mod.rs` (GPU handles,
rng and timing omitted; the rng draw and `HashMap` iteration order are
explicit parameters of the operations that consume them). -/
structure Renderer where
  surface_config : SurfaceConfig
  loaded_pools : List NvTexturePool
  bind_group_layouts : List Unit
  pipelines : List PipelineType
  text_renderer : Option TextRenderer
  imgui_renderer : Option Unit
  deriving DecidableEq

/-- State produced by `Renderer::new`: one bind-group layout, the Basic2D
pipeline, no pools, and both sub-renderers present (the constructor
unconditionally sets `text_renderer` and `imgui_renderer` to `Some`). -/
def Renderer.new (cfg : SurfaceConfig) (scale : ℚ) : Renderer :=
  { surface_config := cfg
    loaded_pools := []
    bind_group_layouts := [()]
    pipelines := [PipelineType.basic2D]
    text_renderer := some
      { physical_size := (cfg.width, cfg.height)
        scale_factor := scale
        viewport := (0, 0)
        buffers := [] }
    imgui_renderer := some () }

/-- Model of `Renderer::begin_frame` (src/renderer/mod.rs lines 574-616).
The two possible calls to `surface.get_current_texture()` are fed by the
oracles `acq1` (first attempt) and `acq2` (the retry, consulted only
after a reconfigure on `Outdated` or `Lost`). -/
def begin_frame (acq1 acq2 : Except SurfaceError Unit) (r : Renderer) :
    Option FrameContext × List Event :=
  match acq1 with
  | .ok _ => (some { encoder := [] }, [Event.createEncoder])
  | .error e =>
    if e = SurfaceError.outdated ∨ e = SurfaceError.lost then
      match acq2 with
      | .ok _ =>
        (some { encoder := [] },
         [Event.configureSurface r.surface_config, Event.createEncoder])
      | .error _ =>
        (none,
         [Event.configureSurface r.surface_config,
          Event.logError "[bf] failed after configuring"])
    else
      (none, [Event.logError "[bf] failed to acquire next swap chain texture"])

/-- Model of `Renderer::end_frame` (src/renderer/mod.rs lines 618-627):
submit the encoder, present the frame, then trim the glyph atlas when the
text renderer exists. -/
def end_frame (r : Renderer) (ctx : FrameContext) : List Event :=
  [Event.submit ctx.encoder, Event.present] ++
    (match r.text_renderer with
     | some _ => [Event.atlasTrim]
     | none => [])

/-- Model of `rand::Rng::random_range(0..n)` at the draw `pick` of the
thread rng: panics (`none`) when the range is empty, otherwise yields a
value below `n`. -/
def random_range (n : Nat) (pick : Nat) : Option Nat :=
  if n = 0 then none else some (pick % n)

/-- Model of `Renderer::render_image` (src/renderer/mod.rs lines 357-412):
skip with a log when the pipeline, the pool or the selected texture is
missing; panic (`none`) when `random_range` is given an empty range;
otherwise record the image pass (full-screen clear + indexed quad draw)
into the encoder. -/
def render_image (pick : Nat) (r : Renderer) (ctx : FrameContext) :
    Option (FrameContext × List Event) :=
  if PipelineType.basic2D ∈ r.pipelines then
    match r.loaded_pools[0]? with
    | none => some (ctx, [Event.logError "No texture pool"])
    | some pool =>
      match random_range pool.textures.length pick with
      | none => none
      | some i =>
        match pool.textures[i]? with
        | none => some (ctx, [Event.logError "No texture"])
        | some _ =>
          some ({ encoder := ctx.encoder ++ [⟨PassKind.image, LoadOp.clear⟩] }, [])
  else
    some (ctx, [Event.logError "No render pipeline"])

/-- Wrap an integer into `[0, 2^32)`, modelling `u32` wrapping
arithmetic. -/
def u32wrap (n : Int) : Nat :=
  (n % (2 ^ 32)).toNat

/-- Reinterpret a `u32` value as an `i32` (the `as i32` cast). -/
def i32ofU32 (n : Nat) : Int :=
  if n < 2 ^ 31 then (n : Int) else (n : Int) - 2 ^ 32

/-- One `glyphon::TextArea` as built by `Renderer::display_text`. -/
structure TextAreaM where
  left : ℚ
  top : ℚ
  scale : ℚ
  boundsLeft : Int
  boundsTop : Int
  boundsRight : Int
  boundsBottom : Int
  deriving DecidableEq

/-- The stateful `.map` over the buffer map in `Renderer::display_text`
(lines 431-458): each entry becomes a text area at the running `top`
offset, which then advances by
`(total_lines * line_height + 5) * scale_factor`. `iter` is the sequence
of entries in the `HashMap` iteration order. -/
def display_text_areas_go (t : TextRenderer) (top : ℚ) :
    List (String × GBuffer) → List (String × TextAreaM)
  | [] => []
  | (k, b) :: rest =>
    (k,
      { left := 10 * t.scale_factor
        top := top
        scale := t.scale_factor
        boundsLeft := Rat.floor (10 * t.scale_factor)
        boundsTop := Rat.floor top
        boundsRight := i32ofU32 (u32wrap ((t.physical_size.1 : Int) - 10))
        boundsBottom := Rat.floor top + i32ofU32 t.physical_size.2 }) ::
      display_text_areas_go t
        (top + ((b.lineCount : ℚ) * b.metricsLineHeight + 5) * t.scale_factor) rest

/-- The full text-area computation of `Renderer::display_text`: left
margin and initial top offset are `10` logical units scaled by the scale
factor. -/
def display_text_areas (t : TextRenderer) (iter : List (String × GBuffer)) :
    List (String × TextAreaM) :=
  display_text_areas_go t (10 * t.scale_factor) iter

/-- The top offset assigned to each buffer key by `display_text`. -/
def display_text_tops (t : TextRenderer) (iter : List (String × GBuffer)) :
    List (String × ℚ) :=
  (display_text_areas t iter).map (fun ka => (ka.1, ka.2.top))

/-- Model of `Renderer::display_text` (lines 414-494) at the event level:
skip with a log when the text renderer is missing; otherwise prepare the
text areas and record the text pass with a non-clearing load. -/
def display_text (r : Renderer) (iter : List (String × GBuffer))
    (ctx : FrameContext) : FrameContext × List Event :=
  match r.text_renderer with
  | none => (ctx, [Event.logError "failed to display text: renderer missing"])
  | some t =>
    let _areas := display_text_areas t iter
    ({ encoder := ctx.encoder ++ [⟨PassKind.text, LoadOp.load⟩] }, [])

/-- Model of `Renderer::display_imgui` (lines 496-572) at the event
level: skip when the imgui renderer is missing; otherwise record the UI
pass with a non-clearing load. -/
def display_imgui (r : Renderer) (ctx : FrameContext) :
    FrameContext × List Event :=
  match r.imgui_renderer with
  | none => (ctx, [])
  | some _ =>
    ({ encoder := ctx.encoder ++ [⟨PassKind.ui, LoadOp.load⟩] }, [])

/-- Outcome of one `handle_redraw` call: a panic, a skipped frame
(`begin_frame` returned `None`), or a completed frame with its event
trace. -/
inductive RedrawOutcome where
  | panic
  | skipped (events : List Event)
  | completed (events : List Event)
  deriving DecidableEq

/-- Model of `Renderer::handle_redraw` (lines 309-320): begin the frame,
record the image, text and UI passes in that order, then end the frame. -/
def handle_redraw (acq1 acq2 : Except SurfaceError Unit) (pick : Nat)
    (iter : List (String × GBuffer)) (r : Renderer) : RedrawOutcome :=
  match begin_frame acq1 acq2 r with
  | (none, evs) => .skipped evs
  | (some ctx, evs) =>
    match render_image pick r ctx with
    | none => .panic
    | some (ctx1, evs1) =>
      let td := display_text r iter ctx1
      let ui := display_imgui r td.1
      .completed (evs ++ evs1 ++ td.2 ++ ui.2 ++ end_frame r ui.1)

/-- Model of `Renderer::handle_resize` (lines 264-307): no-op on a zero
dimension; early return with a log when the text renderer is missing;
otherwise update the surface configuration, reconfigure, request a
redraw, update viewport/scale/size, and re-wrap and re-shape every
buffer to the new logical width minus the 20-unit margin. `windowScale`
is the window's current scale factor. -/
def handle_resize (shape : ShapeFn) (windowScale : ℚ) (r : Renderer)
    (w h : Nat) : Renderer × List Event :=
  if h = 0 ∨ w = 0 then
    (r, [])
  else
    match r.text_renderer with
    | none => (r, [Event.logError "No text renderer to handle resize"])
    | some t =>
      let cfg : SurfaceConfig := { width := w, height := h }
      let logical_width : ℚ := (w : ℚ) / windowScale
      let t1 : TextRenderer :=
        { t with
          viewport := (w, h)
          scale_factor := windowScale
          physical_size := (w, h)
          buffers := t.buffers.map (fun kb =>
            (kb.1,
             GBuffer.shape_until_scroll shape
               (kb.2.set_size (some (logical_width - 20))))) }
      ({ r with surface_config := cfg, text_renderer := some t1 },
       [Event.configureSurface cfg, Event.requestRedraw])

/-- `HashMap::insert` on the association-list model: replace the value at
an existing key, otherwise append the new entry. -/
def insertAssoc (l : List (String × GBuffer)) (k : String) (v : GBuffer) :
    List (String × GBuffer) :=
  if (l.lookup k).isSome then
    l.map (fun kb => if kb.1 = k then (k, v) else kb)
  else
    l ++ [(k, v)]

/-- Model of `Renderer::add_text` (lines 322-355): `None` with a log when
the text renderer is missing; otherwise build a buffer wrapped to the
current logical width minus the 20-unit margin, set its text, shape it,
store it under the stringified next id and return that id. -/
def add_text (shape : ShapeFn) (r : Renderer) (text : String)
    (font_size line_height : ℚ) : Renderer × Option Nat :=
  match r.text_renderer with
  | none => (r, none)
  | some t =>
    let logical_width : ℚ := (t.physical_size.1 : ℚ) / t.scale_factor
    let buf : GBuffer :=
      { fontSize := font_size
        lineHeightScale := line_height
        text := ""
        wrapWidth := none
        shapedWidth := none
        lineCount := 0 }
    let buf := buf.set_size (some (logical_width - 20))
    let buf := { buf with text := text }
    let buf := GBuffer.shape_until_scroll shape buf
    let id := t.buffers.length
    ({ r with
        text_renderer := some
          { t with buffers := insertAssoc t.buffers (toString id) buf } },
     some id)

/-- Model of `Renderer::insert_pool` (lines 243-262): the new pool id is
the current pool count; building the pool maps each asset name to a GPU
texture; `bind_group_layouts.first().expect(..)` panics (`none`) when no
layout exists. -/
def insert_pool (r : Renderer) (pool : AssetPool) :
    Option (Renderer × Nat) :=
  let id := r.loaded_pools.length
  match r.bind_group_layouts with
  | [] => none
  | _ :: _ =>
    some
      ({ r with
          loaded_pools := r.loaded_pools ++
            [{ textures := pool.textures.map (fun path => { name := path }) }] },
       id)

/-- `Event.isSubmit e` holds exactly on queue submissions. -/
def Event.isSubmit : Event → Bool
  | .submit _ => true
  | _ => false

/-- `Event.isPresent e` holds exactly on presentations. -/
def Event.isPresent : Event → Bool
  | .present => true
  | _ => false

/-- Specification of the stacking layout: the sequence of top offsets for
a sequence of buffers, starting at `top`, each subsequent offset advanced
by the previous buffer's line count times its own line height plus the
5-unit gap, all scaled by `scale`. -/
def stackTops (scale : ℚ) : ℚ → List GBuffer → List ℚ
  | _, [] => []
  | top, b :: bs =>
    top :: stackTops scale
      (top + ((b.lineCount : ℚ) * b.metricsLineHeight + 5) * scale) bs

/-- A concrete shaping oracle used for witnesses. -/
def shapeDemo : ShapeFn := fun _ _ _ _ => 2

/-- A freshly constructed renderer (no pools yet) at 800x600, scale 1. -/
def rDemo : Renderer := Renderer.new { width := 800, height := 600 } 1

/-- The fresh renderer with one registered pool containing zero
textures. -/
def rEmptyPool : Renderer :=
  { rDemo with loaded_pools := [{ textures := [] }] }

/-- The fresh renderer with one registered pool containing one
texture. -/
def rOnePool : Renderer :=
  { rDemo with loaded_pools := [{ textures := [{ name := "a.png" }] }] }

/-- The fresh renderer with its text renderer removed. -/
def rNoText : Renderer := { rDemo with text_renderer := none }

/-- A one-line shaped buffer (font size 10, line-height scale 1). -/
def bufA : GBuffer :=
  { fontSize := 10, lineHeightScale := 1, text := "a"
    wrapWidth := some 780, shapedWidth := some 780, lineCount := 1 }

/-- A two-line shaped buffer (font size 10, line-height scale 1). -/
def bufB : GBuffer :=
  { fontSize := 10, lineHeightScale := 1, text := "bb"
    wrapWidth := some 780, shapedWidth := some 780, lineCount := 2 }

/-- A text renderer holding `bufA` then `bufB` in insertion order. -/
def tDemo : TextRenderer :=
  { physical_size := (800, 600), scale_factor := 1, viewport := (800, 600)
    buffers := [("0", bufA), ("1", bufB)] }

/-- The fresh renderer with `tDemo` as its text renderer. -/
def rWithText : Renderer := { rDemo with text_renderer := some tDemo }

/-- The renderer invariant established by `Renderer::new` and preserved
by every operation: the text renderer is initialized and at least one
bind-group layout exists. Both are set up unconditionally by the
constructor before it returns. -/
def Renderer.wf (r : Renderer) : Prop :=
  r.text_renderer.isSome ∧ r.bind_group_layouts ≠ []

/-! ## Invariant lemmas

`Renderer::new` establishes `Renderer.wf` and the mutating operations
preserve it, so every renderer state arising in the program satisfies it.
The hypotheses `text_renderer = some t` / `bind_group_layouts ≠ []` of
the theorems below are therefore satisfied at every call site in the
program. -/

theorem Renderer.new_wf (cfg : SurfaceConfig) (scale : ℚ) :
    (Renderer.new cfg scale).wf :=
  ⟨rfl, by simp [Renderer.new]⟩

theorem handle_resize_wf (shape : ShapeFn) (ws : ℚ) (r : Renderer)
    (w h : Nat) (hr : r.wf) : (handle_resize shape ws r w h).1.wf := by
  obtain ⟨h1, h2⟩ := hr
  obtain ⟨t, htr⟩ := Option.isSome_iff_exists.mp h1
  by_cases hz : h = 0 ∨ w = 0
  · have hres : handle_resize shape ws r w h = (r, []) := by
      rcases hz with hz | hz <;> simp [handle_resize, hz]
    rw [hres]
    exact ⟨h1, h2⟩
  · push_neg at hz
    obtain ⟨hh0, hw0⟩ := hz
    simp [handle_resize, hh0, hw0, htr, Renderer.wf, h2]

theorem add_text_wf (shape : ShapeFn) (r : Renderer) (s : String)
    (fs lh : ℚ) (hr : r.wf) : (add_text shape r s fs lh).1.wf := by
  obtain ⟨h1, h2⟩ := hr
  obtain ⟨t, htr⟩ := Option.isSome_iff_exists.mp h1
  simp [add_text, htr, Renderer.wf, h2]

theorem insert_pool_wf (r : Renderer) (pool : AssetPool) (r1 : Renderer)
    (id : Nat) (h : insert_pool r pool = some (r1, id)) (hr : r.wf) :
    r1.wf := by
  obtain ⟨h1, h2⟩ := hr
  cases hbl : r.bind_group_layouts with
  | nil => simp [insert_pool, hbl] at h
  | cons a as =>
    simp [insert_pool, hbl] at h
    obtain ⟨hh, _⟩ := h
    subst hh
    exact ⟨h1, by simp [hbl]⟩

/-! ## Claim theorems -/

/-- C1: `begin_frame` returns a fresh-encoder frame context when the
first acquisition succeeds; on `Outdated` or `Lost` it reconfigures the
surface once with the stored configuration and retries exactly once,
succeeding when the retry succeeds; when the retry fails, or the first
acquisition fails with any other error, it returns `none` with no
command encoder created and without panicking (the function is total). -/
theorem begin_frame_protocol (r : Renderer) :
    (∀ acq2, begin_frame (Except.ok ()) acq2 r =
      (some { encoder := [] }, [Event.createEncoder])) ∧
    (∀ e, (e = SurfaceError.outdated ∨ e = SurfaceError.lost) →
      begin_frame (Except.error e) (Except.ok ()) r =
        (some { encoder := [] },
         [Event.configureSurface r.surface_config, Event.createEncoder]) ∧
      ∀ e2, begin_frame (Except.error e) (Except.error e2) r =
        (none,
         [Event.configureSurface r.surface_config,
          Event.logError "[bf] failed after configuring"])) ∧
    (∀ e acq2, ¬(e = SurfaceError.outdated ∨ e = SurfaceError.lost) →
      begin_frame (Except.error e) acq2 r =
        (none, [Event.logError "[bf] failed to acquire next swap chain texture"])) := by
  refine ⟨fun acq2 => rfl, fun e he => ?_, fun e acq2 he => ?_⟩
  · constructor
    · simp only [begin_frame]
      rw [if_pos he]
    · intro e2
      simp only [begin_frame]
      rw [if_pos he]
  · simp only [begin_frame]
    rw [if_neg he]

/-- C1 witness: both acquisitions fail on the demo renderer, so the frame
is skipped after exactly one reconfigure and no encoder is created. -/
theorem begin_frame_protocol_witness :
    begin_frame (Except.error SurfaceError.outdated)
        (Except.error SurfaceError.timeout) rDemo =
      (none,
       [Event.configureSurface rDemo.surface_config,
        Event.logError "[bf] failed after configuring"]) :=
  ((begin_frame_protocol rDemo).2.1 SurfaceError.outdated (Or.inl rfl)).2
    SurfaceError.timeout

/-- C2: on a frame where all three passes are active, `handle_redraw`
records the image pass (clearing load), then the text pass (load without
clear), then the UI pass (load without clear), in that order, in the
submitted command stream. -/
theorem handle_redraw_pass_order (acq2 : Except SurfaceError Unit)
    (pick : Nat) (iter : List (String × GBuffer)) (r : Renderer)
    (pool : NvTexturePool) (t : TextRenderer)
    (hpipe : PipelineType.basic2D ∈ r.pipelines)
    (hpool : r.loaded_pools[0]? = some pool)
    (hne : pool.textures ≠ [])
    (ht : r.text_renderer = some t)
    (hui : r.imgui_renderer = some ()) :
    handle_redraw (Except.ok ()) acq2 pick iter r =
      RedrawOutcome.completed
        [Event.createEncoder,
         Event.submit
           [⟨PassKind.image, LoadOp.clear⟩,
            ⟨PassKind.text, LoadOp.load⟩,
            ⟨PassKind.ui, LoadOp.load⟩],
         Event.present, Event.atlasTrim] := by
  have hlen : pool.textures.length ≠ 0 := by
    simpa [List.length_eq_zero] using hne
  have hlt : pick % pool.textures.length < pool.textures.length :=
    Nat.mod_lt _ (Nat.pos_of_ne_zero hlen)
  have htex := List.getElem?_eq_getElem hlt
  simp [handle_redraw, begin_frame, render_image, display_text, display_imgui,
    end_frame, hpipe, hpool, ht, hui, random_range, hlen, htex]

/-- C2 witness: the demo renderer with one pool of one texture records
exactly the ordered image/text/UI passes. -/
theorem handle_redraw_pass_order_witness :
    handle_redraw (Except.ok ()) (Except.ok ()) 3 [] rOnePool =
      RedrawOutcome.completed
        [Event.createEncoder,
         Event.submit
           [⟨PassKind.image, LoadOp.clear⟩,
            ⟨PassKind.text, LoadOp.load⟩,
            ⟨PassKind.ui, LoadOp.load⟩],
         Event.present, Event.atlasTrim] :=
  handle_redraw_pass_order (Except.ok ()) 3 [] rOnePool
    { textures := [{ name := "a.png" }] }
    { physical_size := (800, 600), scale_factor := 1, viewport := (0, 0),
      buffers := [] }
    (by decide) rfl (by decide) rfl rfl

/-- C3: with no pool registered, `render_image` logs, skips the image
pass and the frame still submits and presents; but with a registered
pool of zero entries, `handle_redraw` panics inside
`rng.random_range(0..0)` instead of skipping the pass, contradicting the
claim that an empty pool is skipped without panicking. -/
theorem handle_redraw_empty_pool_panics :
    handle_redraw (Except.ok ()) (Except.ok ()) 0 [] rDemo =
      RedrawOutcome.completed
        [Event.createEncoder, Event.logError "No texture pool",
         Event.submit [⟨PassKind.text, LoadOp.load⟩, ⟨PassKind.ui, LoadOp.load⟩],
         Event.present, Event.atlasTrim] ∧
    handle_redraw (Except.ok ()) (Except.ok ()) 0 [] rEmptyPool =
      RedrawOutcome.panic := by
  constructor <;> decide

/-- C4: `handle_resize` with a zero width or height is a complete no-op:
the renderer state (surface configuration, text buffers, viewport, scale
factor, physical size) is returned unchanged and no side effect
occurs. -/
theorem handle_resize_zero_noop (shape : ShapeFn) (ws : ℚ) (r : Renderer)
    (w h : Nat) (h0 : w = 0 ∨ h = 0) :
    handle_resize shape ws r w h = (r, []) := by
  rcases h0 with h0 | h0 <;> simp [handle_resize, h0]

/-- C4 witness: resizing the demo renderer to width 0 changes nothing. -/
theorem handle_resize_zero_noop_witness :
    handle_resize shapeDemo 1 rDemo 0 600 = (rDemo, []) :=
  handle_resize_zero_noop shapeDemo 1 rDemo 0 600 (Or.inl rfl)

/-- C5: `handle_resize` with positive dimensions (and the text renderer
initialized, as the constructor guarantees) stores the requested
dimensions in the surface configuration, updates the scale factor and
physical size, and re-sizes and re-shapes every existing buffer to the
wrap width `width / scale_factor - 20`. -/
theorem handle_resize_positive (shape : ShapeFn) (ws : ℚ) (r : Renderer)
    (w h : Nat) (t : TextRenderer) (hw : 0 < w) (hh : 0 < h)
    (ht : r.text_renderer = some t) :
    ((handle_resize shape ws r w h).1.surface_config =
      { width := w, height := h }) ∧
    ∃ t1, (handle_resize shape ws r w h).1.text_renderer = some t1 ∧
      t1.scale_factor = ws ∧
      t1.physical_size = (w, h) ∧
      t1.buffers.length = t.buffers.length ∧
      ∀ kb ∈ t1.buffers,
        kb.2.wrapWidth = some ((w : ℚ) / ws - 20) ∧
        kb.2.shapedWidth = some ((w : ℚ) / ws - 20) ∧
        kb.2.lineCount =
          shape kb.2.text kb.2.fontSize kb.2.lineHeightScale
            (some ((w : ℚ) / ws - 20)) := by
  have hw0 : w ≠ 0 := Nat.pos_iff_ne_zero.mp hw
  have hh0 : h ≠ 0 := Nat.pos_iff_ne_zero.mp hh
  have hres : handle_resize shape ws r w h =
      ({ r with
          surface_config := { width := w, height := h }
          text_renderer := some
            { t with
              viewport := (w, h)
              scale_factor := ws
              physical_size := (w, h)
              buffers := t.buffers.map (fun kb =>
                (kb.1,
                 GBuffer.shape_until_scroll shape
                   (kb.2.set_size (some ((w : ℚ) / ws - 20))))) } },
       [Event.configureSurface { width := w, height := h },
        Event.requestRedraw]) := by
    simp [handle_resize, hw0, hh0, ht]
  rw [hres]
  refine ⟨rfl, _, rfl, rfl, rfl, by simp, ?_⟩
  intro kb hkb
  rw [List.mem_map] at hkb
  obtain ⟨kb0, hkb0, rfl⟩ := hkb
  simp [GBuffer.set_size, GBuffer.shape_until_scroll]

/-- C5 witness: resizing the demo renderer (two buffers) to 400x300 at
scale 2 re-wraps both buffers to logical width 180. -/
theorem handle_resize_positive_witness :
    ((handle_resize shapeDemo 2 rWithText 400 300).1.surface_config =
      { width := 400, height := 300 }) ∧
    ∃ t1, (handle_resize shapeDemo 2 rWithText 400 300).1.text_renderer = some t1 ∧
      t1.scale_factor = 2 ∧
      t1.physical_size = (400, 300) ∧
      t1.buffers.length = tDemo.buffers.length ∧
      ∀ kb ∈ t1.buffers,
        kb.2.wrapWidth = some ((400 : ℚ) / 2 - 20) ∧
        kb.2.shapedWidth = some ((400 : ℚ) / 2 - 20) ∧
        kb.2.lineCount =
          shapeDemo kb.2.text kb.2.fontSize kb.2.lineHeightScale
            (some ((400 : ℚ) / 2 - 20)) :=
  handle_resize_positive shapeDemo 2 rWithText 400 300 tDemo
    (by decide) (by decide) rfl

/-- C6 helper: the stateful map over the buffer entries assigns exactly
the stacking-layout top offsets, starting from the given offset. -/
theorem display_text_areas_go_tops (t : TextRenderer) (top : ℚ)
    (l : List (String × GBuffer)) :
    (display_text_areas_go t top l).map (fun ka => (ka.1, ka.2.top)) =
      (l.map Prod.fst).zip (stackTops t.scale_factor top (l.map Prod.snd)) := by
  induction l generalizing top with
  | nil => simp [display_text_areas_go, stackTops]
  | cons kb rest ih =>
    obtain ⟨k, b⟩ := kb
    simp [display_text_areas_go, stackTops, ih]

/-- C6 helper: every produced area uses the fixed left margin and the
current scale factor. -/
theorem display_text_areas_go_margins (t : TextRenderer) (top : ℚ)
    (l : List (String × GBuffer)) :
    ∀ ka ∈ display_text_areas_go t top l,
      ka.2.left = 10 * t.scale_factor ∧ ka.2.scale = t.scale_factor := by
  induction l generalizing top with
  | nil => simp [display_text_areas_go]
  | cons kb rest ih =>
    obtain ⟨k, b⟩ := kb
    intro ka hka
    rcases List.mem_cons.mp hka with h | h
    · subst h; exact ⟨rfl, rfl⟩
    · exact ih _ ka h

/-- C6 (amended): the text pass lays out the buffers top-to-bottom in
the buffer map's iteration order (an unspecified permutation of
insertion order), starting from a fixed left and top margin of 10
logical units, each subsequent top offset advanced by the previous
buffer's line count times its own line height plus a 5-unit gap, all
scaled by the scale factor; the layout is a deterministic function of
the iteration order. -/
theorem display_text_stacking_layout (t : TextRenderer)
    (iter : List (String × GBuffer)) :
    display_text_tops t iter =
      (iter.map Prod.fst).zip
        (stackTops t.scale_factor (10 * t.scale_factor) (iter.map Prod.snd)) ∧
    ∀ ka ∈ display_text_areas t iter,
      ka.2.left = 10 * t.scale_factor ∧ ka.2.scale = t.scale_factor := by
  refine ⟨?_, display_text_areas_go_margins t _ iter⟩
  simpa [display_text_tops, display_text_areas] using
    display_text_areas_go_tops t (10 * t.scale_factor) iter

/-- C6 counterexample: the buffer map is a `std::collections::HashMap`,
whose iteration order is an unspecified permutation of the entries; the
claim that the layout follows insertion order fails for the reversed
iteration order of a two-buffer map, where buffer "0" is assigned top
offset 35 instead of the insertion-order offset 10. -/
theorem display_text_insertion_order_refuted :
    ¬ (∀ (t : TextRenderer) (iter : List (String × GBuffer)),
        iter.Perm t.buffers →
        ∀ k, (display_text_tops t iter).lookup k =
          (display_text_tops t t.buffers).lookup k) := by
  intro hcl
  have hperm : List.Perm [("1", bufB), ("0", bufA)] tDemo.buffers :=
    List.Perm.swap ("0", bufA) ("1", bufB) []
  have h := hcl tDemo [("1", bufB), ("0", bufA)] hperm "0"
  have hL : (display_text_tops tDemo [("1", bufB), ("0", bufA)]).lookup "0" =
      some 35 := by
    simp [display_text_tops, display_text_areas, display_text_areas_go,
      tDemo, bufA, bufB, GBuffer.metricsLineHeight, List.lookup]
    norm_num
  have hR : (display_text_tops tDemo tDemo.buffers).lookup "0" = some 10 := by
    simp [display_text_tops, display_text_areas, display_text_areas_go,
      tDemo, bufA, bufB, GBuffer.metricsLineHeight, List.lookup]
  rw [hL, hR] at h
  exact absurd h (by norm_num)

/-- C7: after a successful `begin_frame`, `end_frame` submits exactly
one command buffer and presents exactly once, in that order, followed by
glyph-atlas trimming as end-of-frame bookkeeping (the text renderer is
initialized by the constructor). -/
theorem end_frame_submit_present_trim (acq1 acq2 : Except SurfaceError Unit)
    (r : Renderer) (ctx : FrameContext) (t : TextRenderer)
    (hbegin : (begin_frame acq1 acq2 r).1 = some ctx)
    (ht : r.text_renderer = some t) :
    end_frame r ctx =
      [Event.submit ctx.encoder, Event.present, Event.atlasTrim] ∧
    (end_frame r ctx).countP (fun e => Event.isSubmit e) = 1 ∧
    (end_frame r ctx).countP (fun e => Event.isPresent e) = 1 := by
  refine ⟨by simp [end_frame, ht], ?_, ?_⟩ <;>
    simp [end_frame, ht, List.countP_cons, Event.isSubmit, Event.isPresent]

/-- C7 witness: a healthy begin/end pair on the demo renderer submits
once, presents once, then trims the atlas. -/
theorem end_frame_submit_present_trim_witness :
    end_frame rDemo { encoder := [] } =
      [Event.submit [], Event.present, Event.atlasTrim] ∧
    (end_frame rDemo { encoder := [] }).countP (fun e => Event.isSubmit e) = 1 ∧
    (end_frame rDemo { encoder := [] }).countP (fun e => Event.isPresent e) = 1 :=
  end_frame_submit_present_trim (Except.ok ()) (Except.ok ()) rDemo
    { encoder := [] }
    { physical_size := (800, 600), scale_factor := 1, viewport := (0, 0),
      buffers := [] }
    rfl rfl

/-- C8: `add_text` on an initialized text renderer creates a buffer
wrapped to the current logical width minus the 20-unit margin, shapes
it, stores it in the buffer map under the stringified next id, and
returns that id (the number of buffers before the call). -/
theorem add_text_stores (shape : ShapeFn) (r : Renderer) (t : TextRenderer)
    (s : String) (fs lh : ℚ) (ht : r.text_renderer = some t) :
    add_text shape r s fs lh =
      ({ r with
          text_renderer := some
            { t with
              buffers := insertAssoc t.buffers (toString t.buffers.length)
                { fontSize := fs
                  lineHeightScale := lh
                  text := s
                  wrapWidth :=
                    some ((t.physical_size.1 : ℚ) / t.scale_factor - 20)
                  shapedWidth :=
                    some ((t.physical_size.1 : ℚ) / t.scale_factor - 20)
                  lineCount := shape s fs lh
                    (some ((t.physical_size.1 : ℚ) / t.scale_factor - 20)) } } },
       some t.buffers.length) := by
  simp [add_text, ht, GBuffer.set_size, GBuffer.shape_until_scroll]

/-- C8 witness: adding a string to the demo renderer stores it wrapped
to 800 / 1 - 20 = 780 logical units and returns id 2. -/
theorem add_text_stores_witness :
    add_text shapeDemo rWithText "hello" 12 (3 / 2) =
      ({ rWithText with
          text_renderer := some
            { tDemo with
              buffers := insertAssoc tDemo.buffers
                (toString tDemo.buffers.length)
                { fontSize := 12
                  lineHeightScale := 3 / 2
                  text := "hello"
                  wrapWidth :=
                    some ((tDemo.physical_size.1 : ℚ) / tDemo.scale_factor - 20)
                  shapedWidth :=
                    some ((tDemo.physical_size.1 : ℚ) / tDemo.scale_factor - 20)
                  lineCount := shapeDemo "hello" 12 (3 / 2)
                    (some ((tDemo.physical_size.1 : ℚ) / tDemo.scale_factor - 20)) } } },
       some tDemo.buffers.length) :=
  add_text_stores shapeDemo rWithText tDemo "hello" 12 (3 / 2) rfl

/-- C9: `insert_pool` returns an id equal to the number of pools before
the call, appends the new pool at exactly that index, leaves all
previously registered pools unchanged, and a subsequent call returns the
next consecutive id. -/
theorem insert_pool_consecutive_ids (r : Renderer) (pool pool2 : AssetPool)
    (hl : r.bind_group_layouts ≠ []) :
    ∃ r1, insert_pool r pool = some (r1, r.loaded_pools.length) ∧
      r1.loaded_pools.length = r.loaded_pools.length + 1 ∧
      r1.loaded_pools[r.loaded_pools.length]? =
        some { textures := pool.textures.map (fun path => { name := path }) } ∧
      (∀ i, i < r.loaded_pools.length →
        r1.loaded_pools[i]? = r.loaded_pools[i]?) ∧
      (insert_pool r1 pool2).map Prod.snd =
        some (r.loaded_pools.length + 1) := by
  obtain ⟨l, rest, hlr⟩ : ∃ l rest, r.bind_group_layouts = l :: rest := by
    cases hbl : r.bind_group_layouts with
    | nil => exact absurd hbl hl
    | cons a as => exact ⟨a, as, rfl⟩
  have hres : insert_pool r pool =
      some
        ({ r with
            loaded_pools := r.loaded_pools ++
              [{ textures := pool.textures.map (fun path => { name := path }) }] },
         r.loaded_pools.length) := by
    simp [insert_pool, hlr]
  refine ⟨_, hres, by simp, ?_, ?_, ?_⟩
  · simp [List.getElem?_concat_length]
  · intro i hi
    simp [List.getElem?_append_left hi]
  · simp [insert_pool, hlr]

/-- C9 witness: registering a pool on the fresh renderer returns id 0
and a second registration returns id 1. -/
theorem insert_pool_consecutive_ids_witness :
    ∃ r1, insert_pool rDemo { textures := ["a.png"] } =
        some (r1, rDemo.loaded_pools.length) ∧
      r1.loaded_pools.length = rDemo.loaded_pools.length + 1 ∧
      r1.loaded_pools[rDemo.loaded_pools.length]? =
        some { textures := ["a.png"].map (fun path => { name := path }) } ∧
      (∀ i, i < rDemo.loaded_pools.length →
        r1.loaded_pools[i]? = rDemo.loaded_pools[i]?) ∧
      (insert_pool r1 { textures := [] }).map Prod.snd =
        some (rDemo.loaded_pools.length + 1) :=
  insert_pool_consecutive_ids rDemo { textures := ["a.png"] }
    { textures := [] } (by decide)

/-- C10: `handle_resize` with positive dimensions but no text renderer
returns early after logging, leaving the whole renderer state — in
particular the stored surface configuration — completely unchanged. -/
theorem handle_resize_missing_text_renderer (shape : ShapeFn) (ws : ℚ)
    (r : Renderer) (w h : Nat) (hw : 0 < w) (hh : 0 < h)
    (ht : r.text_renderer = none) :
    handle_resize shape ws r w h =
      (r, [Event.logError "No text renderer to handle resize"]) := by
  have hw0 : w ≠ 0 := Nat.pos_iff_ne_zero.mp hw
  have hh0 : h ≠ 0 := Nat.pos_iff_ne_zero.mp hh
  simp [handle_resize, hw0, hh0, ht]

/-- C10 witness: a positive resize on the renderer without a text
renderer only logs and changes nothing. -/
theorem handle_resize_missing_text_renderer_witness :
    handle_resize shapeDemo 1 rNoText 400 300 =
      (rNoText, [Event.logError "No text renderer to handle resize"]) :=
  handle_resize_missing_text_renderer shapeDemo 1 rNoText 400 300
    (by decide) (by decide) rfl

end Nivalis
